import Mathlib

/-!
Shallow embedding of the player-entity core of the pydew repository
(src/code/player.py), together with theorems settling the specification
claims about it.

Modelling conventions:
* Python float arithmetic is modelled exactly over `ℚ`; pygame `Rect`
  coordinates are integers (`ℤ`), as in pygame.
* `pygame.math.Vector2` is `Vec2` (a pair of rationals).
* The composite status label `"facing_activity"` (e.g. `"down_idle"`,
  `"left_axe"`, or plain `"down"` while moving) is modelled as its two
  components: `Status.facing` is `status.split('_')[0]` and
  `Status.activity` is the suffix after the underscore (`""` for the
  plain moving labels, which have no suffix).
* External side effects (soil layer calls, tree damage, the water sound,
  the shop toggle) are recorded in an event log `Player.events`; the
  order of appended events is the order of the calls in the source.
* Animation frame sequences hold opaque `pygame.Surface`s; each sequence
  is modelled by its length (`Player.animations : Status → ℕ`), and
  `Player.image` holds the index `int(frame_index)` selected into the
  current sequence by `animate`.
-/

/-- Python `round` on a rational value: round half to even, as Python's
built-in `round` does. -/
def pyround (q : ℚ) : ℤ :=
  let n := ⌊q⌋
  let f := q - n
  if f < 1/2 then n
  else if 1/2 < f then n + 1
  else if n % 2 = 0 then n else n + 1

/-- Python `int()` on a rational value: truncation toward zero. -/
def pytrunc (q : ℚ) : ℤ :=
  if 0 ≤ q then ⌊q⌋ else -⌊-q⌋

/-- Exact rational square root: `some r` with `r * r = q` and `0 ≤ r` when such
an `r` exists, `none` otherwise (the true square root is irrational then). -/
def ratSqrt (q : ℚ) : Option ℚ :=
  if Rat.sqrt q * Rat.sqrt q = q then some (Rat.sqrt q) else none

/-- `pygame.math.Vector2`, with exact rational coordinates. -/
structure Vec2 where
  x : ℚ
  y : ℚ
deriving DecidableEq

/-- The squared magnitude `x*x + y*y`.  The source compares
`self.direction.magnitude()` with `0`; since the square root is strictly
monotone with root `0`, `magnitude() > 0` iff `magSq > 0` and
`magnitude() == 0` iff `magSq == 0`, so those tests are modelled through
`magSq`. -/
def Vec2.magSq (v : Vec2) : ℚ := v.x * v.x + v.y * v.y

/-- `Vector2.normalize()`: the vector scaled by the inverse of its magnitude.
When the magnitude is rational the result is exact.  When the magnitude is
irrational (a diagonal such as `(1, 1)`), the true result has irrational
coordinates and is unrepresentable over `ℚ`; the vector is returned unchanged
in that case.  No theorem below depends on that fallback branch: every claim
involves axis-aligned directions, whose magnitudes are rational. -/
def Vec2.normalize (v : Vec2) : Vec2 :=
  match ratSqrt v.magSq with
  | some m => ⟨v.x / m, v.y / m⟩
  | none => v

/-- `pygame.Rect`: integer position and size.  `x`,`y` is the top-left
corner; `w`,`h` the size. -/
structure PRect where
  x : ℤ
  y : ℤ
  w : ℤ
  h : ℤ
deriving DecidableEq

def PRect.right (r : PRect) : ℤ := r.x + r.w

def PRect.bottom (r : PRect) : ℤ := r.y + r.h

def PRect.centerx (r : PRect) : ℤ := r.x + r.w / 2

def PRect.centery (r : PRect) : ℤ := r.y + r.h / 2

/-- Assigning `rect.right = v` moves the rect so its right edge is `v`. -/
def PRect.setRight (r : PRect) (v : ℤ) : PRect := { r with x := v - r.w }

/-- Assigning `rect.left = v`. -/
def PRect.setLeft (r : PRect) (v : ℤ) : PRect := { r with x := v }

/-- Assigning `rect.bottom = v`. -/
def PRect.setBottom (r : PRect) (v : ℤ) : PRect := { r with y := v - r.h }

/-- Assigning `rect.top = v`. -/
def PRect.setTop (r : PRect) (v : ℤ) : PRect := { r with y := v }

/-- Assigning `rect.centerx = v`. -/
def PRect.setCenterx (r : PRect) (v : ℤ) : PRect := { r with x := v - r.w / 2 }

/-- Assigning `rect.centery = v`. -/
def PRect.setCentery (r : PRect) (v : ℤ) : PRect := { r with y := v - r.h / 2 }

/-- `Rect.colliderect`: true when the two rectangles overlap with positive
area; rects of zero width or height never collide (pygame semantics). -/
def PRect.colliderect (a b : PRect) : Prop :=
  a.x < b.x + b.w ∧ b.x < a.x + a.w ∧ a.y < b.y + b.h ∧ b.y < a.y + a.h ∧
    a.w ≠ 0 ∧ a.h ≠ 0 ∧ b.w ≠ 0 ∧ b.h ≠ 0

instance (a b : PRect) : Decidable (a.colliderect b) := by
  unfold PRect.colliderect; infer_instance

/-- `Rect.collidepoint`: the point lies inside the rectangle (left/top edges
inclusive, right/bottom edges exclusive, as in pygame). -/
def PRect.collidepoint (r : PRect) (p : Vec2) : Prop :=
  (r.x : ℚ) ≤ p.x ∧ p.x < (r.right : ℚ) ∧ (r.y : ℚ) ≤ p.y ∧ p.y < (r.bottom : ℚ)

instance (r : PRect) (p : Vec2) : Decidable (r.collidepoint p) := by
  unfold PRect.collidepoint; infer_instance

/-- The composite status label, decomposed into its facing prefix
(`status.split('_')[0]`) and its activity suffix (empty for the plain
moving labels `'up'`/`'down'`/`'left'`/`'right'`). -/
structure Status where
  facing : String
  activity : String
deriving DecidableEq

/-- External side effects of the player core, in call order: calls into the
soil layer, tree damage, the water sound, and the shop toggle. -/
inductive Event where
  | soilHit (pos : Vec2)
  | treeDamage (index : ℕ)
  | waterSound
  | soilWater (pos : Vec2)
  | plantSeed (pos : Vec2) (seed : String)
  | toggleShop
deriving DecidableEq

/-- Modelled from the spec: the cooldown `Timer` of `src/code/timer.py`,
which is not among the sources.  Per §3/§4.1 of the spec a timer holds a
duration (milliseconds), an elapsed time, and an active flag; activating
resets the elapsed time; updating an active timer advances it, and on
reaching the duration the timer deactivates, resets, and its callback (if
any) fires exactly once. -/
structure Timer where
  duration : ℚ
  elapsed : ℚ
  active : Bool
deriving DecidableEq

/-- Modelled from the spec: `activate()` — idempotent start/restart; sets
`isActive = true` and resets the elapsed time. -/
def Timer.activate (t : Timer) : Timer := { t with active := true, elapsed := 0 }

/-- Modelled from the spec: `update` advances an active timer by the frame's
elapsed milliseconds; on reaching the duration it deactivates, resets, and
reports `true` so the owner runs the bound callback.  Inactive timers are
unaffected. -/
def Timer.update (dt : ℚ) (t : Timer) : Timer × Bool :=
  if t.active then
    let e := t.elapsed + dt
    if t.duration ≤ e then ({ t with active := false, elapsed := 0 }, true)
    else ({ t with elapsed := e }, false)
  else (t, false)

/-- The four timers of `Player.__init__`, in dict insertion order. -/
structure Timers where
  toolUse : Timer
  toolSwitch : Timer
  seedUse : Timer
  seedSwitch : Timer
deriving DecidableEq

/-- The per-frame input snapshot (`pygame.key.get_pressed()`), restricted to
the keys the player reads. -/
structure Keys where
  up : Bool
  down : Bool
  left : Bool
  right : Bool
  space : Bool
  q : Bool
  lctrl : Bool
  w : Bool
  enter : Bool
deriving DecidableEq

/-- An interactable sprite: a bounds rect and a name (`'Trader'` / `'Bed'`). -/
structure Interactable where
  rect : PRect
  name : String
deriving DecidableEq

/-- The player entity: the fields set up in `Player.__init__`, with the
external collaborators (obstacle hitboxes, trees, interactables, the soil
layer and the other callbacks) modelled as data respectively as the event
log.  `collision_sprites` holds the hitboxes of the collision sprites (the
source's `hasattr(sprite, 'hitbox')` check selects exactly the sprites that
have one). -/
structure Player where
  status : Status
  frame_index : ℚ
  image : ℤ
  rect : PRect
  direction : Vec2
  pos : Vec2
  speed : ℚ
  collision_sprites : List PRect
  hitbox : PRect
  timers : Timers
  tool_index : ℕ
  selected_tool : String
  target_pos : Vec2
  seed_index : ℕ
  selected_seed : String
  item_inventory : String → ℤ
  seed_inventory : String → ℤ
  money : ℤ
  tree_sprites : List PRect
  interactable_sprites : List Interactable
  sleep : Bool
  events : List Event
  animations : Status → ℕ
  tool_offset : String → Vec2

/-- `self.tools`, fixed in `__init__` and never reassigned. -/
def Player.tools : List String := ["hoe", "axe", "water"]

/-- `self.seeds`, fixed in `__init__` and never reassigned. -/
def Player.seeds : List String := ["corn", "tomato"]

/-- The `use_tool` axe branch: iterate over the tree sprites (here carried
with their position `i` in the list) and damage every tree whose rect
contains the target position. -/
def damageTrees (trees : List PRect) (target : Vec2) (i : ℕ) : List Event :=
  match trees with
  | [] => []
  | r :: rest =>
      (if r.collidepoint target then [Event.treeDamage i] else []) ++
        damageTrees rest target (i + 1)

/-- `Player.use_tool` (the `'tool use'` timer's callback): dispatch on the
selected tool; hoe hits the soil at the target, axe damages the trees whose
rect contains the target, water plays the water sound and waters the soil. -/
def Player.use_tool (p : Player) : Player :=
  let p1 :=
    if p.selected_tool = "hoe" then
      { p with events := p.events ++ [Event.soilHit p.target_pos] }
    else p
  let p2 :=
    if p1.selected_tool = "axe" then
      { p1 with events := p1.events ++ damageTrees p1.tree_sprites p1.target_pos 0 }
    else p1
  if p2.selected_tool = "water" then
    { p2 with events := p2.events ++ [Event.waterSound, Event.soilWater p2.target_pos] }
  else p2

/-- `Player.use_seed` (the `'seed use'` timer's callback): when the selected
seed's inventory count is positive, plant it at the target and decrement the
count; otherwise do nothing. -/
def Player.use_seed (p : Player) : Player :=
  if 0 < p.seed_inventory p.selected_seed then
    { p with
      events := p.events ++ [Event.plantSeed p.target_pos p.selected_seed],
      seed_inventory := fun s =>
        if s = p.selected_seed then p.seed_inventory s - 1 else p.seed_inventory s }
  else p

/-- `Player.set_target_pos`: `rect.center` plus the per-facing tool offset
(`PLAYER_TOOL_OFFSET[self.status.split('_')[0]]`; the constant lives in
`settings.py`, outside the sources, so the offset table is a field). -/
def Player.set_target_pos (p : Player) : Player :=
  { p with target_pos :=
      ⟨(p.rect.centerx : ℚ) + (p.tool_offset p.status.facing).x,
       (p.rect.centery : ℚ) + (p.tool_offset p.status.facing).y⟩ }

/-- Modelled from the spec: `support.increment_and_modulo` (`support.py` is
not among the sources); per the spec, tool/seed switching is a cyclic
increment modulo the list length. -/
def increment_and_modulo (i n : ℕ) : ℕ := (i + 1) % n

/-- `Player.animate`: advance the frame index by `4 * dt`, wrap to `0` when
it reaches the current sequence's length, and select frame
`int(frame_index)` of the current status's sequence. -/
def Player.animate (dt : ℚ) (p : Player) : Player :=
  let fi := p.frame_index + 4 * dt
  let fi := if (p.animations p.status : ℚ) ≤ fi then 0 else fi
  { p with frame_index := fi, image := pytrunc fi }

/-- Lines 121–128 of `player.py`: vertical movement keys. -/
def Player.inputVertical (keys : Keys) (p : Player) : Player :=
  if keys.up then
    { p with direction := ⟨p.direction.x, -1⟩, status := ⟨"up", ""⟩ }
  else if keys.down then
    { p with direction := ⟨p.direction.x, 1⟩, status := ⟨"down", ""⟩ }
  else
    { p with direction := ⟨p.direction.x, 0⟩ }

/-- Lines 131–138 of `player.py`: horizontal movement keys. -/
def Player.inputHorizontal (keys : Keys) (p : Player) : Player :=
  if keys.left then
    { p with direction := ⟨-1, p.direction.y⟩, status := ⟨"left", ""⟩ }
  else if keys.right then
    { p with direction := ⟨1, p.direction.y⟩, status := ⟨"right", ""⟩ }
  else
    { p with direction := ⟨0, p.direction.y⟩ }

/-- Lines 141–144 of `player.py`: tool usage (space). -/
def Player.inputToolUse (keys : Keys) (p : Player) : Player :=
  if keys.space then
    { p with timers := { p.timers with toolUse := p.timers.toolUse.activate },
             direction := ⟨0, 0⟩, frame_index := 0 }
  else p

/-- Lines 147–150 of `player.py`: change tool (q), gated by the tool-switch
timer. -/
def Player.inputToolSwitch (keys : Keys) (p : Player) : Player :=
  if keys.q && !p.timers.toolSwitch.active then
    let i := increment_and_modulo p.tool_index Player.tools.length
    { p with timers := { p.timers with toolSwitch := p.timers.toolSwitch.activate },
             tool_index := i, selected_tool := Player.tools.getD i "" }
  else p

/-- Lines 153–156 of `player.py`: seed usage (left ctrl). -/
def Player.inputSeedUse (keys : Keys) (p : Player) : Player :=
  if keys.lctrl then
    { p with timers := { p.timers with seedUse := p.timers.seedUse.activate },
             direction := ⟨0, 0⟩, frame_index := 0 }
  else p

/-- Lines 159–162 of `player.py`: change seed (w), gated by the seed-switch
timer. -/
def Player.inputSeedSwitch (keys : Keys) (p : Player) : Player :=
  if keys.w && !p.timers.seedSwitch.active then
    let i := increment_and_modulo p.seed_index Player.seeds.length
    { p with timers := { p.timers with seedSwitch := p.timers.seedSwitch.activate },
             seed_index := i, selected_seed := Player.seeds.getD i "" }
  else p

/-- Lines 164–170 of `player.py`: the interact key (return), run regardless
of the tool-use/sleep gate; `spritecollide` collects the interactables whose
rect overlaps the player's rect, and the first one is checked for the names
`'Trader'` and `'Bed'`. -/
def Player.inputInteract (keys : Keys) (p : Player) : Player :=
  if keys.enter then
    match p.interactable_sprites.filter (fun s => decide (p.rect.colliderect s.rect)) with
    | [] => p
    | s :: _ =>
        let p1 :=
          if s.name = "Trader" then { p with events := p.events ++ [Event.toggleShop] }
          else p
        if s.name = "Bed" then { p1 with status := ⟨"left", "idle"⟩, sleep := true }
        else p1
  else p

/-- `Player.input`: the movement/action block runs only when the tool-use
timer is inactive and the player is not sleeping; the interact block always
runs. -/
def Player.input (keys : Keys) (p : Player) : Player :=
  let p :=
    if !p.timers.toolUse.active && !p.sleep then
      Player.inputSeedSwitch keys
        (Player.inputSeedUse keys
          (Player.inputToolSwitch keys
            (Player.inputToolUse keys
              (Player.inputHorizontal keys (Player.inputVertical keys p)))))
    else p
  Player.inputInteract keys p

/-- `Player.set_status`: derive the idle activity when the direction is zero,
then override the activity with the selected tool while the tool-use timer is
active.  Both derivations keep the facing prefix `status.split('_')[0]`. -/
def Player.set_status (p : Player) : Player :=
  let p :=
    if p.direction.magSq = 0 then
      { p with status := ⟨p.status.facing, "idle"⟩ }
    else p
  if p.timers.toolUse.active then
    { p with status := ⟨p.status.facing, p.selected_tool⟩ }
  else p

/-- `Player.update_timers`: update the four timers in dict insertion order;
when the tool-use respectively seed-use timer elapses its callback
(`use_tool` / `use_seed`) runs; the switch timers have no callback. -/
def Player.update_timers (dt : ℚ) (p : Player) : Player :=
  let r1 := p.timers.toolUse.update dt
  let p := { p with timers := { p.timers with toolUse := r1.1 } }
  let p := if r1.2 then p.use_tool else p
  let r2 := p.timers.toolSwitch.update dt
  let p := { p with timers := { p.timers with toolSwitch := r2.1 } }
  let r3 := p.timers.seedUse.update dt
  let p := { p with timers := { p.timers with seedUse := r3.1 } }
  let p := if r3.2 then p.use_seed else p
  let r4 := p.timers.seedSwitch.update dt
  { p with timers := { p.timers with seedSwitch := r4.1 } }

/-- One iteration of the `Player.collision` loop body for one obstacle
hitbox: when it overlaps the player's hitbox, clamp the hitbox's leading
edge on the given axis according to the sign of the direction, then resync
the visual rect's center and the authoritative position on that axis. -/
def Player.collideStep (dir : String) (q : Player) (obs : PRect) : Player :=
  if obs.colliderect q.hitbox then
    if dir = "horizontal" then
      let q1 := if 0 < q.direction.x then { q with hitbox := q.hitbox.setRight obs.x } else q
      let q2 := if q1.direction.x < 0 then { q1 with hitbox := q1.hitbox.setLeft obs.right } else q1
      { q2 with rect := q2.rect.setCenterx q2.hitbox.centerx,
                pos := ⟨(q2.hitbox.centerx : ℚ), q2.pos.y⟩ }
    else if dir = "vertical" then
      let q1 := if 0 < q.direction.y then { q with hitbox := q.hitbox.setBottom obs.y } else q
      let q2 := if q1.direction.y < 0 then { q1 with hitbox := q1.hitbox.setTop obs.bottom } else q1
      { q2 with rect := q2.rect.setCentery q2.hitbox.centery,
                pos := ⟨q2.pos.x, (q2.hitbox.centery : ℚ)⟩ }
    else q
  else q

/-- `Player.collision(direction)`: run the loop body over every obstacle
hitbox in order. -/
def Player.collision (dir : String) (p : Player) : Player :=
  p.collision_sprites.foldl (Player.collideStep dir) p

/-- Lines 204–206 of `player.py`: normalize the direction when its magnitude
is positive (`magnitude() > 0` iff `magSq > 0`). -/
def Player.normStep (p : Player) : Player :=
  if 0 < p.direction.magSq then { p with direction := p.direction.normalize } else p

/-- Lines 209–211 of `player.py`: apply the horizontal displacement to the
position, re-center the hitbox on the rounded position, and resync the
rect. -/
def Player.applyH (dt : ℚ) (p : Player) : Player :=
  let px := p.pos.x + p.direction.x * p.speed * dt
  let hb := p.hitbox.setCenterx (pyround px)
  { p with pos := ⟨px, p.pos.y⟩, hitbox := hb, rect := p.rect.setCenterx hb.centerx }

/-- Lines 215–217 of `player.py`: the vertical displacement. -/
def Player.applyV (dt : ℚ) (p : Player) : Player :=
  let py := p.pos.y + p.direction.y * p.speed * dt
  let hb := p.hitbox.setCentery (pyround py)
  { p with pos := ⟨p.pos.x, py⟩, hitbox := hb, rect := p.rect.setCentery hb.centery }

/-- `Player.move(dt)`: normalize, then the horizontal displacement followed by
horizontal collision resolution, then the vertical displacement followed by
vertical collision resolution. -/
def Player.move (dt : ℚ) (p : Player) : Player :=
  ((((p.normStep).applyH dt).collision "horizontal").applyV dt).collision "vertical"

/-- `Player.update(dt)`: the per-tick sequence.  The wall-clock timers tick
by the frame's elapsed time, `1000 * dt` milliseconds for a `dt` given in
seconds. -/
def Player.update (keys : Keys) (dt : ℚ) (p : Player) : Player :=
  (((((p.input keys).set_status).update_timers (1000 * dt)).set_target_pos).move dt).animate dt

/-- A concrete player state used to instantiate theorems: all four timers
idle, standing still at the origin facing down, the inventories and
constants as in `Player.__init__` (hitbox and rect share the center, every
animation sequence has four frames). -/
def basePlayer : Player where
  status := ⟨"down", "idle"⟩
  frame_index := 0
  image := 0
  rect := ⟨-32, -32, 64, 64⟩
  direction := ⟨0, 0⟩
  pos := ⟨0, 0⟩
  speed := 250
  collision_sprites := []
  hitbox := ⟨-25, -17, 50, 34⟩
  timers := ⟨⟨350, 0, false⟩, ⟨200, 0, false⟩, ⟨350, 0, false⟩, ⟨200, 0, false⟩⟩
  tool_index := 0
  selected_tool := "hoe"
  target_pos := ⟨0, 0⟩
  seed_index := 0
  selected_seed := "corn"
  item_inventory := fun s => if s = "wood" then 5 else if s = "apple" then 5 else 0
  seed_inventory := fun _ => 5
  money := 200
  tree_sprites := []
  interactable_sprites := []
  sleep := false
  events := []
  animations := fun _ => 4
  tool_offset := fun _ => ⟨0, 40⟩

/-- The all-released key snapshot. -/
def noKeys : Keys := ⟨false, false, false, false, false, false, false, false, false⟩

/-- `basePlayer` in the middle of a tool use: the tool-use timer is active
with 300 of its 350 milliseconds elapsed, so the next one-second tick
expires it. -/
def toolTickPlayer : Player :=
  { basePlayer with
    timers := ⟨⟨350, 300, true⟩, ⟨200, 0, false⟩, ⟨350, 0, false⟩, ⟨200, 0, false⟩⟩ }

/-- `basePlayer` while a seed use is pending: the seed-use timer is active
with 100 ms elapsed; every other timer is idle. -/
def seedHoldPlayer : Player :=
  { basePlayer with
    timers := ⟨⟨350, 0, false⟩, ⟨200, 0, false⟩, ⟨350, 100, true⟩, ⟨200, 0, false⟩⟩ }

/-- `basePlayer` with the axe selected and two trees whose bounds both
contain the target position. -/
def axePlayer : Player :=
  { basePlayer with
    selected_tool := "axe",
    tree_sprites := [⟨0, 0, 10, 10⟩, ⟨0, 0, 10, 10⟩],
    target_pos := ⟨5, 5⟩ }

/-- `basePlayer` about to walk right at an obstacle: a 50×50 hitbox whose
right edge is at `x = 50`, an obstacle hitbox spanning `x ∈ [100, 120]` at
the same height, and direction `(1, 0)`. -/
def tunnelPlayer : Player :=
  { basePlayer with
    direction := ⟨1, 0⟩,
    pos := ⟨25, 25⟩,
    hitbox := ⟨0, 0, 50, 50⟩,
    rect := ⟨0, 0, 50, 50⟩,
    collision_sprites := [⟨100, 0, 20, 50⟩] }

/-! ## Theorems -/

/-- Generic projection lemma: a fold whose step preserves a projection
preserves it overall. -/
theorem foldl_proj {α β γ : Type} (f : β → γ) (step : β → α → β)
    (h : ∀ q o, f (step q o) = f q) :
    ∀ (l : List α) (q : β), f (l.foldl step q) = f q := by
  intro l
  induction l with
  | nil => intro q; rfl
  | cons o t ih => intro q; rw [List.foldl_cons, ih, h]

/-- C4: when the selected seed's inventory count is zero, the seed-use
callback is a silent no-op: no plant event is emitted and the whole player
state (inventories included) is unchanged. -/
theorem use_seed_empty_inventory_noop (p : Player)
    (h : p.seed_inventory p.selected_seed = 0) : p.use_seed = p := by
  unfold Player.use_seed
  rw [h]
  simp

theorem use_seed_empty_inventory_noop_witness :
    ({ basePlayer with seed_inventory := fun _ => 0 } : Player).use_seed
      = { basePlayer with seed_inventory := fun _ => 0 } :=
  use_seed_empty_inventory_noop { basePlayer with seed_inventory := fun _ => 0 } rfl

/-- C10: provided every status's animation sequence is non-empty, the frame
selected by `animate` — `int(frame_index)` after advancing by `4 * dt` and
wrapping at the current sequence's length — is a valid index into the
current status's sequence, for every `dt ≥ 0` (and any starting
`frame_index ≥ 0`, which is an invariant of the code: the index starts at
`0` and is only ever advanced by `4 * dt` or reset to `0`). -/
theorem animate_index_in_range (p : Player) (dt : ℚ)
    (hfi : 0 ≤ p.frame_index) (hdt : 0 ≤ dt)
    (hanim : ∀ s, 0 < p.animations s) :
    0 ≤ (p.animate dt).image ∧
      (p.animate dt).image < ((p.animate dt).animations ((p.animate dt).status) : ℤ) := by
  unfold Player.animate
  dsimp only
  split_ifs with h
  · refine ⟨?_, ?_⟩
    · show (0:ℤ) ≤ pytrunc 0
      norm_num [pytrunc]
    · show pytrunc 0 < _
      have := hanim p.status
      norm_num [pytrunc]
      exact_mod_cast this
  · have h0 : 0 ≤ p.frame_index + 4 * dt :=
      add_nonneg hfi (mul_nonneg (by norm_num) hdt)
    have hlt : p.frame_index + 4 * dt < (p.animations p.status : ℚ) := lt_of_not_le h
    refine ⟨?_, ?_⟩
    · show (0:ℤ) ≤ pytrunc (p.frame_index + 4 * dt)
      rw [pytrunc, if_pos h0]
      exact Int.floor_nonneg.mpr h0
    · show pytrunc (p.frame_index + 4 * dt) < _
      rw [pytrunc, if_pos h0]
      exact Int.floor_lt.mpr (by exact_mod_cast hlt)

theorem animate_index_in_range_witness :
    0 ≤ (basePlayer.animate (1/10)).image ∧
      (basePlayer.animate (1/10)).image
        < ((basePlayer.animate (1/10)).animations ((basePlayer.animate (1/10)).status) : ℤ) :=
  animate_index_in_range basePlayer (1/10) (by norm_num [basePlayer]) (by norm_num)
    (fun s => by norm_num [basePlayer])

/-! Field-preservation lemmas for the individual per-tick operations. -/

theorem inputVertical_sleep (k : Keys) (p : Player) :
    (Player.inputVertical k p).sleep = p.sleep := by
  unfold Player.inputVertical; split_ifs <;> rfl

theorem inputHorizontal_sleep (k : Keys) (p : Player) :
    (Player.inputHorizontal k p).sleep = p.sleep := by
  unfold Player.inputHorizontal; split_ifs <;> rfl

theorem inputToolUse_sleep (k : Keys) (p : Player) :
    (Player.inputToolUse k p).sleep = p.sleep := by
  unfold Player.inputToolUse; split_ifs <;> rfl

theorem inputToolSwitch_sleep (k : Keys) (p : Player) :
    (Player.inputToolSwitch k p).sleep = p.sleep := by
  unfold Player.inputToolSwitch; split_ifs <;> rfl

theorem inputSeedUse_sleep (k : Keys) (p : Player) :
    (Player.inputSeedUse k p).sleep = p.sleep := by
  unfold Player.inputSeedUse; split_ifs <;> rfl

theorem inputSeedSwitch_sleep (k : Keys) (p : Player) :
    (Player.inputSeedSwitch k p).sleep = p.sleep := by
  unfold Player.inputSeedSwitch; split_ifs <;> rfl

theorem inputInteract_sleep_mono (k : Keys) (p : Player) (h : p.sleep = true) :
    (Player.inputInteract k p).sleep = true := by
  unfold Player.inputInteract
  split
  · split
    · exact h
    · split_ifs <;> simp_all
  · exact h

theorem input_sleep_mono (k : Keys) (p : Player) (h : p.sleep = true) :
    (p.input k).sleep = true := by
  unfold Player.input
  apply inputInteract_sleep_mono
  split_ifs
  · rw [inputSeedSwitch_sleep, inputSeedUse_sleep, inputToolSwitch_sleep,
      inputToolUse_sleep, inputHorizontal_sleep, inputVertical_sleep]
    exact h
  · exact h

theorem set_status_sleep (p : Player) : p.set_status.sleep = p.sleep := by
  unfold Player.set_status; dsimp only; split_ifs <;> rfl

theorem use_tool_sleep (p : Player) : p.use_tool.sleep = p.sleep := by
  unfold Player.use_tool; dsimp only; split_ifs <;> rfl

theorem use_seed_sleep (p : Player) : p.use_seed.sleep = p.sleep := by
  unfold Player.use_seed; split_ifs <;> rfl

theorem update_timers_sleep (dt : ℚ) (p : Player) :
    (p.update_timers dt).sleep = p.sleep := by
  simp only [Player.update_timers]
  split_ifs <;> simp [use_tool_sleep, use_seed_sleep]

theorem set_target_pos_sleep (p : Player) : p.set_target_pos.sleep = p.sleep := rfl

theorem collideStep_sleep (d : String) (q : Player) (o : PRect) :
    (Player.collideStep d q o).sleep = q.sleep := by
  unfold Player.collideStep; dsimp only; split_ifs <;> rfl

theorem collision_sleep (d : String) (p : Player) :
    (p.collision d).sleep = p.sleep :=
  foldl_proj Player.sleep (Player.collideStep d) (collideStep_sleep d) p.collision_sprites p

theorem normStep_sleep (p : Player) : p.normStep.sleep = p.sleep := by
  unfold Player.normStep; split_ifs <;> rfl

theorem applyH_sleep (dt : ℚ) (p : Player) : (p.applyH dt).sleep = p.sleep := rfl

theorem applyV_sleep (dt : ℚ) (p : Player) : (p.applyV dt).sleep = p.sleep := rfl

theorem move_sleep (dt : ℚ) (p : Player) : (p.move dt).sleep = p.sleep := by
  unfold Player.move
  rw [collision_sleep, applyV_sleep, collision_sleep, applyH_sleep, normStep_sleep]

theorem animate_sleep (dt : ℚ) (p : Player) : (p.animate dt).sleep = p.sleep := rfl

/-- C9: the sleep flag is never cleared by the player core.  Once `sleep`
is true (set by the Bed interaction), every per-tick `update` — with any
key snapshot and any time step — leaves it true; waking is external to
this component. -/
theorem sleep_persistent (k : Keys) (dt : ℚ) (p : Player) (h : p.sleep = true) :
    (p.update k dt).sleep = true := by
  unfold Player.update
  rw [animate_sleep, move_sleep, set_target_pos_sleep, update_timers_sleep,
    set_status_sleep]
  exact input_sleep_mono k p h

theorem sleep_persistent_witness :
    (({ basePlayer with sleep := true } : Player).update noKeys (1/10)).sleep = true :=
  sleep_persistent noKeys (1/10) { basePlayer with sleep := true } rfl

theorem inputVertical_tool_index (k : Keys) (p : Player) :
    (Player.inputVertical k p).tool_index = p.tool_index := by
  unfold Player.inputVertical; split_ifs <;> rfl

theorem inputHorizontal_tool_index (k : Keys) (p : Player) :
    (Player.inputHorizontal k p).tool_index = p.tool_index := by
  unfold Player.inputHorizontal; split_ifs <;> rfl

theorem inputToolUse_tool_index (k : Keys) (p : Player) :
    (Player.inputToolUse k p).tool_index = p.tool_index := by
  unfold Player.inputToolUse; split_ifs <;> rfl

theorem inputSeedUse_tool_index (k : Keys) (p : Player) :
    (Player.inputSeedUse k p).tool_index = p.tool_index := by
  unfold Player.inputSeedUse; split_ifs <;> rfl

theorem inputSeedSwitch_tool_index (k : Keys) (p : Player) :
    (Player.inputSeedSwitch k p).tool_index = p.tool_index := by
  unfold Player.inputSeedSwitch; split_ifs <;> rfl

theorem inputInteract_tool_index (k : Keys) (p : Player) :
    (Player.inputInteract k p).tool_index = p.tool_index := by
  unfold Player.inputInteract
  split
  · split
    · rfl
    · split_ifs <;> rfl
  · rfl

theorem inputToolSwitch_tool_index_cases (k : Keys) (p : Player) :
    (Player.inputToolSwitch k p).tool_index = p.tool_index ∨
      (Player.inputToolSwitch k p).tool_index
        = increment_and_modulo p.tool_index Player.tools.length := by
  unfold Player.inputToolSwitch
  split_ifs
  · right; rfl
  · left; rfl

theorem inputVertical_seed_index (k : Keys) (p : Player) :
    (Player.inputVertical k p).seed_index = p.seed_index := by
  unfold Player.inputVertical; split_ifs <;> rfl

theorem inputHorizontal_seed_index (k : Keys) (p : Player) :
    (Player.inputHorizontal k p).seed_index = p.seed_index := by
  unfold Player.inputHorizontal; split_ifs <;> rfl

theorem inputToolUse_seed_index (k : Keys) (p : Player) :
    (Player.inputToolUse k p).seed_index = p.seed_index := by
  unfold Player.inputToolUse; split_ifs <;> rfl

theorem inputToolSwitch_seed_index (k : Keys) (p : Player) :
    (Player.inputToolSwitch k p).seed_index = p.seed_index := by
  unfold Player.inputToolSwitch; split_ifs <;> rfl

theorem inputSeedUse_seed_index (k : Keys) (p : Player) :
    (Player.inputSeedUse k p).seed_index = p.seed_index := by
  unfold Player.inputSeedUse; split_ifs <;> rfl

theorem inputInteract_seed_index (k : Keys) (p : Player) :
    (Player.inputInteract k p).seed_index = p.seed_index := by
  unfold Player.inputInteract
  split
  · split
    · rfl
    · split_ifs <;> rfl
  · rfl

theorem inputSeedSwitch_seed_index_cases (k : Keys) (p : Player) :
    (Player.inputSeedSwitch k p).seed_index = p.seed_index ∨
      (Player.inputSeedSwitch k p).seed_index
        = increment_and_modulo p.seed_index Player.seeds.length := by
  unfold Player.inputSeedSwitch
  split_ifs
  · right; rfl
  · left; rfl

theorem set_status_tool_index (p : Player) : p.set_status.tool_index = p.tool_index := by
  unfold Player.set_status; dsimp only; split_ifs <;> rfl

theorem set_status_seed_index (p : Player) : p.set_status.seed_index = p.seed_index := by
  unfold Player.set_status; dsimp only; split_ifs <;> rfl

theorem use_tool_tool_index (p : Player) : p.use_tool.tool_index = p.tool_index := by
  unfold Player.use_tool; dsimp only; split_ifs <;> rfl

theorem use_tool_seed_index (p : Player) : p.use_tool.seed_index = p.seed_index := by
  unfold Player.use_tool; dsimp only; split_ifs <;> rfl

theorem use_seed_tool_index (p : Player) : p.use_seed.tool_index = p.tool_index := by
  unfold Player.use_seed; split_ifs <;> rfl

theorem use_seed_seed_index (p : Player) : p.use_seed.seed_index = p.seed_index := by
  unfold Player.use_seed; split_ifs <;> rfl

theorem update_timers_tool_index (dt : ℚ) (p : Player) :
    (p.update_timers dt).tool_index = p.tool_index := by
  simp only [Player.update_timers]
  split_ifs <;> simp [use_tool_tool_index, use_seed_tool_index]

theorem update_timers_seed_index (dt : ℚ) (p : Player) :
    (p.update_timers dt).seed_index = p.seed_index := by
  simp only [Player.update_timers]
  split_ifs <;> simp [use_tool_seed_index, use_seed_seed_index]

theorem set_target_pos_tool_index (p : Player) :
    p.set_target_pos.tool_index = p.tool_index := rfl

theorem set_target_pos_seed_index (p : Player) :
    p.set_target_pos.seed_index = p.seed_index := rfl

theorem collideStep_tool_index (d : String) (q : Player) (o : PRect) :
    (Player.collideStep d q o).tool_index = q.tool_index := by
  unfold Player.collideStep; dsimp only; split_ifs <;> rfl

theorem collideStep_seed_index (d : String) (q : Player) (o : PRect) :
    (Player.collideStep d q o).seed_index = q.seed_index := by
  unfold Player.collideStep; dsimp only; split_ifs <;> rfl

theorem collision_tool_index (d : String) (p : Player) :
    (p.collision d).tool_index = p.tool_index :=
  foldl_proj Player.tool_index (Player.collideStep d) (collideStep_tool_index d)
    p.collision_sprites p

theorem collision_seed_index (d : String) (p : Player) :
    (p.collision d).seed_index = p.seed_index :=
  foldl_proj Player.seed_index (Player.collideStep d) (collideStep_seed_index d)
    p.collision_sprites p

theorem normStep_tool_index (p : Player) : p.normStep.tool_index = p.tool_index := by
  unfold Player.normStep; split_ifs <;> rfl

theorem normStep_seed_index (p : Player) : p.normStep.seed_index = p.seed_index := by
  unfold Player.normStep; split_ifs <;> rfl

theorem applyH_tool_index (dt : ℚ) (p : Player) :
    (p.applyH dt).tool_index = p.tool_index := rfl

theorem applyV_tool_index (dt : ℚ) (p : Player) :
    (p.applyV dt).tool_index = p.tool_index := rfl

theorem applyH_seed_index (dt : ℚ) (p : Player) :
    (p.applyH dt).seed_index = p.seed_index := rfl

theorem applyV_seed_index (dt : ℚ) (p : Player) :
    (p.applyV dt).seed_index = p.seed_index := rfl

theorem move_tool_index (dt : ℚ) (p : Player) :
    (p.move dt).tool_index = p.tool_index := by
  unfold Player.move
  rw [collision_tool_index, applyV_tool_index, collision_tool_index,
    applyH_tool_index, normStep_tool_index]

theorem move_seed_index (dt : ℚ) (p : Player) :
    (p.move dt).seed_index = p.seed_index := by
  unfold Player.move
  rw [collision_seed_index, applyV_seed_index, collision_seed_index,
    applyH_seed_index, normStep_seed_index]

theorem animate_tool_index (dt : ℚ) (p : Player) :
    (p.animate dt).tool_index = p.tool_index := rfl

theorem animate_seed_index (dt : ℚ) (p : Player) :
    (p.animate dt).seed_index = p.seed_index := rfl

theorem input_tool_index_cases (k : Keys) (p : Player) :
    (p.input k).tool_index = p.tool_index ∨
      (p.input k).tool_index = increment_and_modulo p.tool_index Player.tools.length := by
  simp only [Player.input]
  rw [inputInteract_tool_index]
  split_ifs
  · rw [inputSeedSwitch_tool_index, inputSeedUse_tool_index]
    have hX : (Player.inputToolUse k (Player.inputHorizontal k
        (Player.inputVertical k p))).tool_index = p.tool_index := by
      rw [inputToolUse_tool_index, inputHorizontal_tool_index, inputVertical_tool_index]
    rcases inputToolSwitch_tool_index_cases k (Player.inputToolUse k
        (Player.inputHorizontal k (Player.inputVertical k p))) with h | h
    · left; rw [h, hX]
    · right; rw [h, hX]
  · left; rfl

theorem input_seed_index_cases (k : Keys) (p : Player) :
    (p.input k).seed_index = p.seed_index ∨
      (p.input k).seed_index = increment_and_modulo p.seed_index Player.seeds.length := by
  simp only [Player.input]
  rw [inputInteract_seed_index]
  split_ifs
  · have hX : (Player.inputSeedUse k (Player.inputToolSwitch k (Player.inputToolUse k
        (Player.inputHorizontal k (Player.inputVertical k p))))).seed_index
        = p.seed_index := by
      rw [inputSeedUse_seed_index, inputToolSwitch_seed_index, inputToolUse_seed_index,
        inputHorizontal_seed_index, inputVertical_seed_index]
    rcases inputSeedSwitch_seed_index_cases k (Player.inputSeedUse k
        (Player.inputToolSwitch k (Player.inputToolUse k
          (Player.inputHorizontal k (Player.inputVertical k p))))) with h | h
    · left; rw [h, hX]
    · right; rw [h, hX]
  · left; rfl

theorem update_tool_index_eq_input (k : Keys) (dt : ℚ) (p : Player) :
    (p.update k dt).tool_index = (p.input k).tool_index := by
  unfold Player.update
  rw [animate_tool_index, move_tool_index, set_target_pos_tool_index,
    update_timers_tool_index, set_status_tool_index]

theorem update_seed_index_eq_input (k : Keys) (dt : ℚ) (p : Player) :
    (p.update k dt).seed_index = (p.input k).seed_index := by
  unfold Player.update
  rw [animate_seed_index, move_seed_index, set_target_pos_seed_index,
    update_timers_seed_index, set_status_seed_index]

theorem inputVertical_timers (k : Keys) (p : Player) :
    (Player.inputVertical k p).timers = p.timers := by
  unfold Player.inputVertical; split_ifs <;> rfl

theorem inputHorizontal_timers (k : Keys) (p : Player) :
    (Player.inputHorizontal k p).timers = p.timers := by
  unfold Player.inputHorizontal; split_ifs <;> rfl

theorem inputToolUse_toolSwitch (k : Keys) (p : Player) :
    (Player.inputToolUse k p).timers.toolSwitch = p.timers.toolSwitch := by
  unfold Player.inputToolUse; split_ifs <;> rfl

theorem inputToolSwitch_accepted (k : Keys) (p : Player) (hq : k.q = true)
    (hts : p.timers.toolSwitch.active = false) :
    (Player.inputToolSwitch k p).tool_index
      = increment_and_modulo p.tool_index Player.tools.length := by
  unfold Player.inputToolSwitch
  rw [hq, hts]
  simp

theorem increment_iterate_tools (n : ℕ) :
    (fun i => increment_and_modulo i Player.tools.length)^[n] 0
      = n % Player.tools.length := by
  induction n with
  | zero => rfl
  | succ n ih =>
      rw [Function.iterate_succ_apply', ih]
      simp only [increment_and_modulo, Player.tools, List.length_cons, List.length_nil]
      omega

theorem increment_iterate_seeds (n : ℕ) :
    (fun i => increment_and_modulo i Player.seeds.length)^[n] 0
      = n % Player.seeds.length := by
  induction n with
  | zero => rfl
  | succ n ih =>
      rw [Function.iterate_succ_apply', ih]
      simp only [increment_and_modulo, Player.seeds, List.length_cons, List.length_nil]
      omega

/-- C8: cyclic index bookkeeping.  First: `n` accepted switch-tool presses
starting from index `0` leave the tool index at `n mod len(tools)` (each
accepted press applies `increment_and_modulo`), and likewise for seeds.
Second: an accepted switch-tool press — switch key held, tool-use timer
inactive, not sleeping, tool-switch timer inactive — advances the tool index
by exactly one `increment_and_modulo` step.  Third: the tool and seed
indices stay in range across every per-tick `update`, whatever the keys and
time step. -/
theorem tool_seed_index_cycle :
    (∀ n : ℕ, (fun i => increment_and_modulo i Player.tools.length)^[n] 0
        = n % Player.tools.length) ∧
    (∀ n : ℕ, (fun i => increment_and_modulo i Player.seeds.length)^[n] 0
        = n % Player.seeds.length) ∧
    (∀ (k : Keys) (p : Player), k.q = true → p.timers.toolUse.active = false →
      p.sleep = false → p.timers.toolSwitch.active = false →
      (p.input k).tool_index = increment_and_modulo p.tool_index Player.tools.length) ∧
    (∀ (k : Keys) (dt : ℚ) (p : Player),
      p.tool_index < Player.tools.length → p.seed_index < Player.seeds.length →
      (p.update k dt).tool_index < Player.tools.length ∧
      (p.update k dt).seed_index < Player.seeds.length) := by
  refine ⟨increment_iterate_tools, increment_iterate_seeds, ?_, ?_⟩
  · intro k p hq htu hs hts
    simp only [Player.input]
    rw [inputInteract_tool_index, htu, hs]
    simp only [Bool.not_false, Bool.and_self, if_true]
    rw [inputSeedSwitch_tool_index, inputSeedUse_tool_index]
    rw [inputToolSwitch_accepted k _ hq
      (by rw [inputToolUse_toolSwitch, inputHorizontal_timers, inputVertical_timers]; exact hts)]
    rw [inputToolUse_tool_index, inputHorizontal_tool_index, inputVertical_tool_index]
  · intro k dt p htool hseed
    constructor
    · rw [update_tool_index_eq_input]
      rcases input_tool_index_cases k p with h | h
      · rw [h]; exact htool
      · rw [h]
        exact Nat.mod_lt _ (by simp [Player.tools])
    · rw [update_seed_index_eq_input]
      rcases input_seed_index_cases k p with h | h
      · rw [h]; exact hseed
      · rw [h]
        exact Nat.mod_lt _ (by simp [Player.seeds])

theorem tool_seed_index_cycle_witness :
    ((fun i => increment_and_modulo i Player.tools.length)^[4] 0
        = 4 % Player.tools.length) ∧
    (basePlayer.input { noKeys with q := true }).tool_index
        = increment_and_modulo basePlayer.tool_index Player.tools.length ∧
    (basePlayer.update noKeys (1/10)).tool_index < Player.tools.length ∧
    (basePlayer.update noKeys (1/10)).seed_index < Player.seeds.length :=
  ⟨tool_seed_index_cycle.1 4,
   tool_seed_index_cycle.2.2.1 { noKeys with q := true } basePlayer rfl rfl rfl rfl,
   (tool_seed_index_cycle.2.2.2 noKeys (1/10) basePlayer (by simp [basePlayer, Player.tools])
      (by simp [basePlayer, Player.seeds])).1,
   (tool_seed_index_cycle.2.2.2 noKeys (1/10) basePlayer (by simp [basePlayer, Player.tools])
      (by simp [basePlayer, Player.seeds])).2⟩

/-- Normalizing a purely horizontal vector with positive x-component gives
the unit vector `(1, 0)` (the magnitude of such a vector is rational, so the
exact branch of `normalize` applies). -/
theorem normalize_pos_horizontal (dx : ℚ) (h : 0 < dx) :
    Vec2.normalize ⟨dx, 0⟩ = ⟨1, 0⟩ := by
  unfold Vec2.normalize
  have hmag : (Vec2.magSq ⟨dx, 0⟩) = dx * dx := by unfold Vec2.magSq; ring
  rw [hmag]
  have hsq : ratSqrt (dx * dx) = some dx := by
    unfold ratSqrt
    rw [Rat.sqrt_eq, abs_of_pos h]
    simp
  rw [hsq]
  simp [h.ne']

/-- When `direction` is already `(1, 0)`, the normalization step of `move`
leaves the state unchanged. -/
theorem normStep_unit_right (p : Player) (hdir : p.direction = ⟨1, 0⟩) :
    p.normStep = p := by
  unfold Player.normStep
  rw [hdir, if_pos (by norm_num [Vec2.magSq]), normalize_pos_horizontal 1 one_pos, ← hdir]

/-- Collision resolution is the identity when no obstacle hitbox overlaps
the player's hitbox. -/
theorem collision_no_overlap (d : String) (p : Player)
    (h : ∀ o ∈ p.collision_sprites, ¬ o.colliderect p.hitbox) :
    p.collision d = p := by
  unfold Player.collision
  suffices H : ∀ (l : List PRect) (q : Player), (∀ o ∈ l, ¬ o.colliderect q.hitbox) →
      l.foldl (Player.collideStep d) q = q from H _ p h
  intro l
  induction l with
  | nil => intro q _; rfl
  | cons o t ih =>
      intro q hq
      rw [List.foldl_cons]
      have hstep : Player.collideStep d q o = q := by
        unfold Player.collideStep
        rw [if_neg (hq o (List.mem_cons_self o t))]
      rw [hstep]
      exact ih q (fun x hx => hq x (List.mem_cons_of_mem o hx))

/-- C5: with `speed = 250`, one `move` step with `dt = 0.1` and
`direction = (1, 0)`, where no obstacle overlaps the hitbox at either axis
step, increases `pos.x` by exactly `25` and leaves `pos.y` unchanged.
(Arithmetic is exact over `ℚ`; Python's binary floats would realize
`250 * 0.1` only up to rounding.) -/
theorem move_right_scenario (p : Player) (hspeed : p.speed = 250)
    (hdir : p.direction = ⟨1, 0⟩)
    (h3 : ∀ o ∈ p.collision_sprites, ¬ o.colliderect ((p.applyH (1/10)).hitbox))
    (h4 : ∀ o ∈ p.collision_sprites,
      ¬ o.colliderect (((p.applyH (1/10)).applyV (1/10)).hitbox)) :
    (p.move (1/10)).pos.x = p.pos.x + 25 ∧ (p.move (1/10)).pos.y = p.pos.y := by
  unfold Player.move
  rw [normStep_unit_right p hdir]
  have e1 : (p.applyH (1/10)).collision "horizontal" = p.applyH (1/10) :=
    collision_no_overlap _ _ h3
  rw [e1]
  have e2 : ((p.applyH (1/10)).applyV (1/10)).collision "vertical"
      = (p.applyH (1/10)).applyV (1/10) :=
    collision_no_overlap _ _ h4
  rw [e2]
  unfold Player.applyV Player.applyH
  dsimp only
  rw [hdir, hspeed]
  norm_num

theorem move_right_scenario_witness :
    (({ basePlayer with direction := ⟨1, 0⟩ } : Player).move (1/10)).pos.x
        = ({ basePlayer with direction := ⟨1, 0⟩ } : Player).pos.x + 25 ∧
      (({ basePlayer with direction := ⟨1, 0⟩ } : Player).move (1/10)).pos.y
        = ({ basePlayer with direction := ⟨1, 0⟩ } : Player).pos.y :=
  move_right_scenario _ rfl rfl (by simp [basePlayer]) (by simp [basePlayer])

theorem inputInteract_direction (k : Keys) (p : Player) :
    (Player.inputInteract k p).direction = p.direction := by
  unfold Player.inputInteract
  split
  · split
    · rfl
    · split_ifs <;> rfl
  · rfl

theorem inputInteract_timers (k : Keys) (p : Player) :
    (Player.inputInteract k p).timers = p.timers := by
  unfold Player.inputInteract
  split
  · split
    · rfl
    · split_ifs <;> rfl
  · rfl

theorem inputInteract_selected_tool (k : Keys) (p : Player) :
    (Player.inputInteract k p).selected_tool = p.selected_tool := by
  unfold Player.inputInteract
  split
  · split
    · rfl
    · split_ifs <;> rfl
  · rfl

theorem set_status_direction (p : Player) : p.set_status.direction = p.direction := by
  unfold Player.set_status; dsimp only; split_ifs <;> rfl

theorem set_status_activity_of_active (p : Player)
    (h : p.timers.toolUse.active = true) :
    (p.set_status).status.activity = p.selected_tool := by
  unfold Player.set_status
  dsimp only
  split_ifs <;> simp_all

/-- C6: while the tool-use timer is active and a movement key is held, the
per-tick input step leaves the movement direction at `(0, 0)` (the movement
block is skipped entirely; the direction was zeroed when the timer was
activated, which is why it is `(0, 0)` in every reachable such state), and
the following status derivation sets the activity to the selected tool —
which is neither `idle` nor the empty activity of a directional movement
status. -/
theorem tool_use_locks_movement (k : Keys) (p : Player)
    (hact : p.timers.toolUse.active = true)
    (hdir : p.direction = ⟨0, 0⟩)
    (hkey : k.up = true)
    (htool : p.selected_tool ∈ Player.tools) :
    ((p.input k).set_status).direction = ⟨0, 0⟩ ∧
    ((p.input k).set_status).status.activity = p.selected_tool ∧
    p.selected_tool ≠ "idle" ∧ p.selected_tool ≠ "" := by
  have hin : p.input k = Player.inputInteract k p := by
    simp only [Player.input, hact]
    simp
  refine ⟨?_, ?_, ?_, ?_⟩
  · rw [hin, set_status_direction, inputInteract_direction, hdir]
  · rw [hin, set_status_activity_of_active _ (by rw [inputInteract_timers]; exact hact),
      inputInteract_selected_tool]
  · simp only [Player.tools, List.mem_cons, List.not_mem_nil, or_false] at htool
    rcases htool with h | h | h <;> simp_all
  · simp only [Player.tools, List.mem_cons, List.not_mem_nil, or_false] at htool
    rcases htool with h | h | h <;> simp_all

theorem tool_use_locks_movement_witness :
    ((({ basePlayer with
          timers := ⟨⟨350, 100, true⟩, ⟨200, 0, false⟩, ⟨350, 0, false⟩, ⟨200, 0, false⟩⟩ }
        : Player).input { noKeys with up := true }).set_status).direction = ⟨0, 0⟩ ∧
    ((({ basePlayer with
          timers := ⟨⟨350, 100, true⟩, ⟨200, 0, false⟩, ⟨350, 0, false⟩, ⟨200, 0, false⟩⟩ }
        : Player).input { noKeys with up := true }).set_status).status.activity
      = ({ basePlayer with
          timers := ⟨⟨350, 100, true⟩, ⟨200, 0, false⟩, ⟨350, 0, false⟩, ⟨200, 0, false⟩⟩ }
        : Player).selected_tool ∧
    ({ basePlayer with
        timers := ⟨⟨350, 100, true⟩, ⟨200, 0, false⟩, ⟨350, 0, false⟩, ⟨200, 0, false⟩⟩ }
      : Player).selected_tool ≠ "idle" ∧
    ({ basePlayer with
        timers := ⟨⟨350, 100, true⟩, ⟨200, 0, false⟩, ⟨350, 0, false⟩, ⟨200, 0, false⟩⟩ }
      : Player).selected_tool ≠ "" :=
  tool_use_locks_movement { noKeys with up := true } _ rfl rfl rfl
    (by simp [basePlayer, Player.tools])

/-- C7 (amended): immediately after the status-derivation step, read with
the timer state that step sees, the idle rule holds — if the direction
magnitude is `0` and the tool-use timer is inactive, the activity becomes
`idle` — and the derivation never changes the facing component.  (The
post-update version of the claim fails when the tool-use timer expires
during the same tick's timer step, which runs after the status derivation;
see the counterexample.) -/
theorem set_status_idle (p : Player) (hmag : p.direction.magSq = 0)
    (hact : p.timers.toolUse.active = false) :
    (p.set_status).status.activity = "idle" ∧
    (p.set_status).status.facing = p.status.facing := by
  unfold Player.set_status
  dsimp only
  split_ifs <;> simp_all

theorem set_status_idle_witness :
    (basePlayer.set_status).status.activity = "idle" ∧
    (basePlayer.set_status).status.facing = basePlayer.status.facing :=
  set_status_idle basePlayer (by norm_num [basePlayer, Vec2.magSq]) rfl

/-- C7 counterexample: the post-update form of the idle property is false.
Starting from `toolTickPlayer` (standing still, tool-use timer active with
300 of 350 ms elapsed) and running one full `update` with no keys held and
`dt = 1`, the timer expires during the timer step — which runs after the
status derivation — so the resulting state has zero direction magnitude and
an inactive tool-use timer, yet its status activity is the selected tool
`'hoe'`, not `'idle'`. -/
theorem post_update_idle_counterexample :
    (toolTickPlayer.update noKeys 1).direction.magSq = 0 ∧
    (toolTickPlayer.update noKeys 1).timers.toolUse.active = false ∧
    (toolTickPlayer.update noKeys 1).status.activity = "hoe" ∧
    (toolTickPlayer.update noKeys 1).status.activity ≠ "idle" := by
  have e1 : toolTickPlayer.input noKeys = toolTickPlayer := by
    simp [Player.input, Player.inputInteract, noKeys, toolTickPlayer, basePlayer]
  have e2 : toolTickPlayer.set_status
      = { toolTickPlayer with status := ⟨"down", "hoe"⟩ } := by
    simp [Player.set_status, Vec2.magSq, toolTickPlayer, basePlayer]
  have ht1 : Timer.update 1000 (⟨350, 300, true⟩ : Timer) = (⟨350, 0, false⟩, true) := by
    simp [Timer.update]; norm_num
  have ht2 : Timer.update 1000 (⟨200, 0, false⟩ : Timer) = (⟨200, 0, false⟩, false) := by
    simp [Timer.update]
  have ht3 : Timer.update 1000 (⟨350, 0, false⟩ : Timer) = (⟨350, 0, false⟩, false) := by
    simp [Timer.update]
  have e3 : ({ toolTickPlayer with status := ⟨"down", "hoe"⟩ } : Player).update_timers (1000 * 1)
      = { toolTickPlayer with
          status := ⟨"down", "hoe"⟩,
          timers := ⟨⟨350, 0, false⟩, ⟨200, 0, false⟩, ⟨350, 0, false⟩, ⟨200, 0, false⟩⟩,
          events := [Event.soilHit ⟨0, 0⟩] } := by
    simp [Player.update_timers, toolTickPlayer, basePlayer, ht1, ht2, ht3, Player.use_tool]
  have e4 : ({ toolTickPlayer with
        status := ⟨"down", "hoe"⟩,
        timers := ⟨⟨350, 0, false⟩, ⟨200, 0, false⟩, ⟨350, 0, false⟩, ⟨200, 0, false⟩⟩,
        events := [Event.soilHit ⟨0, 0⟩] } : Player).set_target_pos
      = { toolTickPlayer with
          status := ⟨"down", "hoe"⟩,
          timers := ⟨⟨350, 0, false⟩, ⟨200, 0, false⟩, ⟨350, 0, false⟩, ⟨200, 0, false⟩⟩,
          events := [Event.soilHit ⟨0, 0⟩],
          target_pos := ⟨0, 40⟩ } := by
    simp [Player.set_target_pos, toolTickPlayer, basePlayer, PRect.centerx, PRect.centery]
  have e5 : ({ toolTickPlayer with
        status := ⟨"down", "hoe"⟩,
        timers := ⟨⟨350, 0, false⟩, ⟨200, 0, false⟩, ⟨350, 0, false⟩, ⟨200, 0, false⟩⟩,
        events := [Event.soilHit ⟨0, 0⟩],
        target_pos := ⟨0, 40⟩ } : Player).move 1
      = { toolTickPlayer with
          status := ⟨"down", "hoe"⟩,
          timers := ⟨⟨350, 0, false⟩, ⟨200, 0, false⟩, ⟨350, 0, false⟩, ⟨200, 0, false⟩⟩,
          events := [Event.soilHit ⟨0, 0⟩],
          target_pos := ⟨0, 40⟩ } := by
    simp [Player.move, Player.normStep, Vec2.magSq, Player.applyH, Player.applyV,
      Player.collision, Player.collideStep, pyround, PRect.setCenterx, PRect.setCentery,
      PRect.centerx, PRect.centery, toolTickPlayer, basePlayer]
  have e6 : ({ toolTickPlayer with
        status := ⟨"down", "hoe"⟩,
        timers := ⟨⟨350, 0, false⟩, ⟨200, 0, false⟩, ⟨350, 0, false⟩, ⟨200, 0, false⟩⟩,
        events := [Event.soilHit ⟨0, 0⟩],
        target_pos := ⟨0, 40⟩ } : Player).animate 1
      = { toolTickPlayer with
          status := ⟨"down", "hoe"⟩,
          timers := ⟨⟨350, 0, false⟩, ⟨200, 0, false⟩, ⟨350, 0, false⟩, ⟨200, 0, false⟩⟩,
          events := [Event.soilHit ⟨0, 0⟩],
          target_pos := ⟨0, 40⟩ } := by
    simp [Player.animate, pytrunc, toolTickPlayer, basePlayer]
  have efin : toolTickPlayer.update noKeys 1
      = { toolTickPlayer with
          status := ⟨"down", "hoe"⟩,
          timers := ⟨⟨350, 0, false⟩, ⟨200, 0, false⟩, ⟨350, 0, false⟩, ⟨200, 0, false⟩⟩,
          events := [Event.soilHit ⟨0, 0⟩],
          target_pos := ⟨0, 40⟩ } := by
    unfold Player.update
    rw [e1, e2, e3, e4, e5, e6]
  rw [efin]
  refine ⟨by simp [toolTickPlayer, basePlayer, Vec2.magSq], rfl, rfl, by simp⟩

/-- Every event produced by the axe loop is a tree-damage event whose index
is at least the loop's starting index. -/
theorem damageTrees_mem_ge (target : Vec2) :
    ∀ (trees : List PRect) (base : ℕ) (e : Event),
      e ∈ damageTrees trees target base → ∃ m, e = Event.treeDamage m ∧ base ≤ m := by
  intro trees
  induction trees with
  | nil => intro base e he; simp [damageTrees] at he
  | cons r rest ih =>
      intro base e he
      simp only [damageTrees, List.mem_append] at he
      rcases he with he | he
      · split_ifs at he with h
        · simp only [List.mem_singleton] at he
          exact ⟨base, he, le_refl base⟩
        · simp at he
      · obtain ⟨m, hm, hbm⟩ := ih (base + 1) e he
        exact ⟨m, hm, by omega⟩

/-- Membership in the axe loop's output: tree `j` (counting from the loop's
starting index) is damaged exactly when it exists and its rect contains the
target. -/
theorem damageTrees_mem_iff (target : Vec2) :
    ∀ (trees : List PRect) (base j : ℕ),
      Event.treeDamage (base + j) ∈ damageTrees trees target base ↔
        j < trees.length ∧ (trees.getD j ⟨0, 0, 0, 0⟩).collidepoint target := by
  intro trees
  induction trees with
  | nil => intro base j; simp [damageTrees]
  | cons r rest ih =>
      intro base j
      simp only [damageTrees, List.mem_append]
      cases j with
      | zero =>
          simp only [Nat.add_zero, List.getD_cons_zero, List.length_cons]
          constructor
          · rintro (he | he)
            · split_ifs at he with h
              · exact ⟨Nat.succ_pos _, h⟩
              · simp at he
            · obtain ⟨m, hm, hbm⟩ := damageTrees_mem_ge target rest (base + 1) _ he
              have : base = m := by
                have := hm
                injection this
              omega
          · rintro ⟨-, hc⟩
            left
            rw [if_pos hc]
            simp
      | succ n =>
          have hb : base + (n + 1) = (base + 1) + n := by omega
          rw [hb]
          constructor
          · rintro (he | he)
            · split_ifs at he with h
              · simp only [List.mem_singleton] at he
                have : base + 1 + n = base := by injection he
                omega
              · simp at he
            · have := (ih (base + 1) n).mp he
              simpa [List.getD_cons_succ] using this
          · rintro ⟨hlen, hc⟩
            right
            apply (ih (base + 1) n).mpr
            refine ⟨?_, ?_⟩
            · simpa using Nat.lt_of_succ_lt_succ (by simpa using hlen)
            · simpa [List.getD_cons_succ] using hc

/-- C3 (amended): when the tool-use callback fires with the axe selected,
every tree whose bounds contain the target receives a damage call — not
just the first such tree.  With a fresh event log, tree `i` is damaged
exactly when its rect contains the target position. -/
theorem axe_damages_every_containing_tree (p : Player)
    (haxe : p.selected_tool = "axe") (hev : p.events = []) (i : ℕ)
    (hi : i < p.tree_sprites.length) :
    (Event.treeDamage i ∈ (p.use_tool).events ↔
      (p.tree_sprites.getD i ⟨0, 0, 0, 0⟩).collidepoint p.target_pos) := by
  have hev' : p.use_tool.events = damageTrees p.tree_sprites p.target_pos 0 := by
    simp [Player.use_tool, haxe, hev]
  rw [hev']
  have h0 := damageTrees_mem_iff p.target_pos p.tree_sprites 0 i
  rw [Nat.zero_add] at h0
  rw [h0]
  simp [hi]

theorem axe_damages_every_containing_tree_witness :
    Event.treeDamage 1 ∈ (axePlayer.use_tool).events ↔
      (axePlayer.tree_sprites.getD 1 ⟨0, 0, 0, 0⟩).collidepoint axePlayer.target_pos :=
  axe_damages_every_containing_tree axePlayer rfl rfl 1 (by simp [axePlayer, basePlayer])

/-- C3 counterexample: with the axe selected and two trees both containing
the target position, the callback damages both trees — the second
containing tree is damaged too, refuting "trees after the first containing
one are not damaged". -/
theorem axe_first_tree_only_counterexample :
    (axePlayer.use_tool).events = [Event.treeDamage 0, Event.treeDamage 1] := by
  have hc : (⟨0, 0, 10, 10⟩ : PRect).collidepoint ⟨5, 5⟩ := by
    norm_num [PRect.collidepoint, PRect.right, PRect.bottom]
  simp [Player.use_tool, axePlayer, basePlayer, damageTrees, hc]

theorem inputSeedSwitch_seedUse (k : Keys) (p : Player) :
    (Player.inputSeedSwitch k p).timers.seedUse = p.timers.seedUse := by
  unfold Player.inputSeedSwitch; split_ifs <;> rfl

theorem inputSeedUse_seedUse_activated (k : Keys) (p : Player) (hk : k.lctrl = true) :
    (Player.inputSeedUse k p).timers.seedUse = p.timers.seedUse.activate := by
  unfold Player.inputSeedUse
  rw [hk]
  simp

/-- C2 (amended): the seed-use input is not gated by the seed-use timer at
all.  Whenever the movement/action block runs (tool-use timer inactive and
not sleeping) and the seed-use key is held, the seed-use timer is
(re)activated with its elapsed time reset — every frame, even when it is
already active.  Only the tool-use gate and sleeping suppress it; tool use,
by contrast, is effectively self-gated because that whole block is guarded
by the tool-use timer. -/
theorem seed_use_ungated (k : Keys) (p : Player) (hk : k.lctrl = true)
    (htu : p.timers.toolUse.active = false) (hs : p.sleep = false) :
    (p.input k).timers.seedUse.active = true ∧
    (p.input k).timers.seedUse.elapsed = 0 := by
  simp only [Player.input, htu, hs]
  simp only [Bool.not_false, Bool.and_self, if_true]
  rw [inputInteract_timers, inputSeedSwitch_seedUse,
    inputSeedUse_seedUse_activated _ _ hk]
  simp [Timer.activate]

theorem seed_use_ungated_witness :
    (seedHoldPlayer.input { noKeys with lctrl := true }).timers.seedUse.active = true ∧
    (seedHoldPlayer.input { noKeys with lctrl := true }).timers.seedUse.elapsed = 0 :=
  seed_use_ungated { noKeys with lctrl := true } seedHoldPlayer rfl rfl rfl

/-- C2 counterexample: holding the seed-use key does re-arm an already
active seed-use timer.  `seedHoldPlayer`'s seed-use timer is active with
100 ms elapsed; one input step with left-ctrl held (and the tool-use timer
inactive) activates it again, resetting its elapsed time to 0 — the
activation is not suppressed while the seed-use timer is active, unlike
tool switching against the tool-switch timer. -/
theorem seed_use_gating_counterexample :
    seedHoldPlayer.timers.seedUse.active = true ∧
    seedHoldPlayer.timers.seedUse.elapsed = 100 ∧
    (seedHoldPlayer.input { noKeys with lctrl := true }).timers.seedUse.active = true ∧
    (seedHoldPlayer.input { noKeys with lctrl := true }).timers.seedUse.elapsed = 0 := by
  refine ⟨rfl, rfl, ?_, ?_⟩ <;>
    simp [Player.input, Player.inputVertical, Player.inputHorizontal, Player.inputToolUse,
      Player.inputToolSwitch, Player.inputSeedUse, Player.inputSeedSwitch,
      Player.inputInteract, Timer.activate, seedHoldPlayer, basePlayer, noKeys]

/-- One horizontal collision-loop iteration with rightward direction clamps
the hitbox's right edge to the overlapping obstacle's left edge. -/
theorem collideStep_horizontal_clamp (q : Player) (o : PRect)
    (hover : o.colliderect q.hitbox) (hx : 0 < q.direction.x) :
    (Player.collideStep "horizontal" q o).hitbox = q.hitbox.setRight o.x := by
  unfold Player.collideStep
  rw [if_pos hover, if_pos rfl]
  dsimp only
  rw [if_pos hx, if_neg (not_lt.mpr (le_of_lt hx))]

theorem applyV_hitbox_right (dt : ℚ) (p : Player) :
    ((p.applyV dt).hitbox).right = p.hitbox.right := by
  unfold Player.applyV
  dsimp only
  simp [PRect.setCentery, PRect.right]

theorem collideStep_vertical_right (q : Player) (o : PRect) :
    (Player.collideStep "vertical" q o).hitbox.right = q.hitbox.right := by
  unfold Player.collideStep
  dsimp only
  split_ifs <;> simp_all [PRect.setBottom, PRect.setTop, PRect.right]

theorem collision_vertical_right (p : Player) :
    ((p.collision "vertical").hitbox).right = p.hitbox.right :=
  foldl_proj (fun q => q.hitbox.right) (Player.collideStep "vertical")
    collideStep_vertical_right p.collision_sprites p

/-- C1 (amended): moving right (any direction `(dx, 0)` with `dx > 0`)
against a single obstacle `O`, if the hitbox still overlaps `O` after the
horizontal displacement of the move step, then horizontal collision
resolution clamps it so that `hitbox.right ≤ O.left` — and the rest of the
move step preserves that.  The overlap hypothesis is necessary: the claim
does not hold for arbitrarily large `dt`, because a displacement that
carries the hitbox entirely past `O` leaves no overlap to detect
(tunneling); see the counterexample. -/
theorem collision_clamp (p : Player) (O : PRect) (dx dt : ℚ)
    (hdir : p.direction = ⟨dx, 0⟩) (hdx : 0 < dx)
    (hobs : p.collision_sprites = [O])
    (hover : O.colliderect ((p.normStep.applyH dt).hitbox)) :
    (p.move dt).hitbox.right ≤ O.x := by
  have hpos : 0 < Vec2.magSq ⟨dx, 0⟩ := by
    have h1 : Vec2.magSq ⟨dx, 0⟩ = dx * dx := by unfold Vec2.magSq; ring
    rw [h1]
    exact mul_pos hdx hdx
  have hns : p.normStep = { p with direction := ⟨1, 0⟩ } := by
    unfold Player.normStep
    rw [hdir, if_pos hpos, normalize_pos_horizontal dx hdx]
  have hdir2 : ((p.normStep).applyH dt).direction = ⟨1, 0⟩ := by rw [hns]; rfl
  have hcs2 : ((p.normStep).applyH dt).collision_sprites = [O] := by rw [hns]; exact hobs
  have hcol : (((p.normStep).applyH dt).collision "horizontal").hitbox
      = ((p.normStep).applyH dt).hitbox.setRight O.x := by
    unfold Player.collision
    rw [hcs2, List.foldl_cons, List.foldl_nil]
    exact collideStep_horizontal_clamp _ _ hover (by rw [hdir2]; norm_num)
  unfold Player.move
  rw [collision_vertical_right, applyV_hitbox_right, hcol]
  simp [PRect.setRight, PRect.right]

theorem collision_clamp_witness :
    (tunnelPlayer.move (8/25)).hitbox.right ≤ (⟨100, 0, 20, 50⟩ : PRect).x := by
  have happ : (tunnelPlayer.normStep.applyH (8/25)).hitbox = ⟨80, 0, 50, 50⟩ := by
    rw [normStep_unit_right tunnelPlayer rfl]
    simp [Player.applyH, pyround, tunnelPlayer, basePlayer, PRect.setCenterx]
    norm_num
  exact collision_clamp tunnelPlayer ⟨100, 0, 20, 50⟩ 1 (8/25) rfl (by norm_num) rfl
    (by rw [happ]; decide)

/-- C1 counterexample: the clamp does not hold for every `deltaTime`.  With
`tunnelPlayer` (50-wide hitbox ending at `x = 50`, obstacle spanning
`x ∈ [100, 120]`, direction `(1, 0)`, speed 250) one move step with
`dt = 1` displaces the hitbox to `x ∈ [250, 300]`, entirely past the
obstacle; no overlap is detected, no clamp happens, and the hitbox's right
edge `300` exceeds the obstacle's left edge `100` — the step tunneled
through the obstacle. -/
theorem collision_clamp_counterexample :
    tunnelPlayer.direction.x > 0 ∧
    tunnelPlayer.collision_sprites = [⟨100, 0, 20, 50⟩] ∧
    (tunnelPlayer.move 1).hitbox.right = 300 ∧
    ¬ ((tunnelPlayer.move 1).hitbox.right ≤ (⟨100, 0, 20, 50⟩ : PRect).x) := by
  have e1 : tunnelPlayer.normStep = tunnelPlayer := normStep_unit_right tunnelPlayer rfl
  have e2 : tunnelPlayer.applyH 1
      = { tunnelPlayer with
          pos := ⟨275, 25⟩,
          hitbox := ⟨250, 0, 50, 50⟩,
          rect := ⟨250, 0, 50, 50⟩ } := by
    simp [Player.applyH, pyround, tunnelPlayer, basePlayer, PRect.setCenterx, PRect.centerx]
    norm_num
  have e3 : ({ tunnelPlayer with
        pos := ⟨275, 25⟩,
        hitbox := ⟨250, 0, 50, 50⟩,
        rect := ⟨250, 0, 50, 50⟩ } : Player).collision "horizontal"
      = { tunnelPlayer with
          pos := ⟨275, 25⟩,
          hitbox := ⟨250, 0, 50, 50⟩,
          rect := ⟨250, 0, 50, 50⟩ } := by
    apply collision_no_overlap
    intro o ho
    simp [tunnelPlayer, basePlayer] at ho
    subst ho
    decide
  have e4 : ({ tunnelPlayer with
        pos := ⟨275, 25⟩,
        hitbox := ⟨250, 0, 50, 50⟩,
        rect := ⟨250, 0, 50, 50⟩ } : Player).applyV 1
      = { tunnelPlayer with
          pos := ⟨275, 25⟩,
          hitbox := ⟨250, 0, 50, 50⟩,
          rect := ⟨250, 0, 50, 50⟩ } := by
    simp [Player.applyV, pyround, tunnelPlayer, basePlayer, PRect.setCentery, PRect.centery]
  have e5 : ({ tunnelPlayer with
        pos := ⟨275, 25⟩,
        hitbox := ⟨250, 0, 50, 50⟩,
        rect := ⟨250, 0, 50, 50⟩ } : Player).collision "vertical"
      = { tunnelPlayer with
          pos := ⟨275, 25⟩,
          hitbox := ⟨250, 0, 50, 50⟩,
          rect := ⟨250, 0, 50, 50⟩ } := by
    apply collision_no_overlap
    intro o ho
    simp [tunnelPlayer, basePlayer] at ho
    subst ho
    decide
  have emove : tunnelPlayer.move 1
      = { tunnelPlayer with
          pos := ⟨275, 25⟩,
          hitbox := ⟨250, 0, 50, 50⟩,
          rect := ⟨250, 0, 50, 50⟩ } := by
    unfold Player.move
    rw [e1, e2, e3, e4, e5]
  refine ⟨by norm_num [tunnelPlayer], rfl, ?_, ?_⟩
  · rw [emove]; rfl
  · rw [emove]; decide
